import Mathlib

/-!
Shallow embedding of the metrics / filtering core of `kpis_advanced.py`
(functions `_split_tags`, `compute_metrics`, `compute_call_distribution`,
`apply_filters`).

A pandas cell is modelled by `Cell`: `na` (NaN / NaT / value absent),
`str` (a string value) or `ts` (a timestamp, an integer instant).
A DataFrame is a column-presence record (`Cols`) together with a list of
rows; a `Row` carries one `Cell` per semantically relevant column.
Accessing a column that is absent from the DataFrame is a `KeyError` in
pandas; functions of the source that can hit such an access are embedded
with an `Except String` result, the error value standing for the raised
`KeyError`.  Floats produced by the source are modelled as rationals.

The filter engine is embedded twice.  `apply_filters` is the index-free
row-list semantics: it is exact for a single application to a frame with
a fresh `RangeIndex` (the only way the app calls it), where every pandas
boolean mask aligns with the frame's labels.  `apply_filters_indexed`
additionally models the pandas label index and the label alignment of
boolean-Series indexers, which is what makes a SECOND application able to
raise `IndexingError`: with a date bound and both date columns absent,
the fallback mask `pd.Series([False] * len(data))` lives on a fresh
`RangeIndex` that need not align with a previously pruned frame.
-/

/-- A pandas cell: NaN/NaT/absent, a string, or a (parsed) timestamp.
Timestamps are integer instants; their order models chronological order. -/
inductive Cell where
  | na : Cell
  | str : String → Cell
  | ts : Int → Cell
deriving DecidableEq, Repr

/-- Model of `pandas.notna` on a cell. -/
def Cell.notna : Cell → Bool
  | .na => false
  | _ => true

/-- Model of `str(value)` applied to a non-null cell. -/
def Cell.asString : Cell → String
  | .na => ""
  | .str s => s
  | .ts t => toString t

/-- Model of pandas `==` between a cell and a string literal: NaN compares
unequal, a timestamp compares unequal to a string. -/
def cellEqStr (c : Cell) (t : String) : Bool :=
  match c with
  | .str s => s == t
  | _ => false

/-- The delimiters of `_split_tags`: comma, semicolon, pipe. -/
def isDelim (c : Char) : Bool :=
  c = ',' || c = ';' || c = '|'

/-- Split a character list at every delimiter character (runs of delimiters
produce empty pieces, which the caller discards). -/
def splitChars (cs : List Char) (acc : List Char) : List (List Char) :=
  match cs with
  | [] => [acc.reverse]
  | c :: rest =>
    if isDelim c then acc.reverse :: splitChars rest []
    else splitChars rest (c :: acc)

/-- Strip leading and trailing whitespace from a character list
(model of Python's `str.strip()`). -/
def trimChars (cs : List Char) : List Char :=
  ((cs.dropWhile Char.isWhitespace).reverse.dropWhile Char.isWhitespace).reverse

/-- Model of `_split_tags`: `[]` on a missing value, otherwise coerce to
text, split on the delimiters, strip whitespace, drop empty pieces. -/
def _split_tags (c : Cell) : List String :=
  match c with
  | .na => []
  | c =>
    ((splitChars (Cell.asString c).data []).map (fun p => String.mk (trimChars p))).filter
      (fun s => s ≠ "")

/-- Vocabulary `CALL_TAGS_ALL` of the source. -/
def CALL_TAGS_ALL : List String :=
  ["Meeting", "Pitch", "Sans Suite", "Standard", "No answer", "Numéro Faux"]

/-- Vocabulary `CALL_TAGS_CONNECTED` of the source. -/
def CALL_TAGS_CONNECTED : List String :=
  ["Meeting", "Pitch", "Sans Suite", "Standard"]

/-- Vocabulary `CALL_TAGS_PITCHED` of the source. -/
def CALL_TAGS_PITCHED : List String :=
  ["Meeting", "Pitch"]

/-- Vocabulary `CALL_TAGS_RDV` of the source. -/
def CALL_TAGS_RDV : List String :=
  ["Meeting"]

/-- Model of the inner helper `has_any_tag` of `compute_metrics`. -/
def has_any_tag (tags : List String) (target : List String) : Bool :=
  tags.any (fun t => target.contains t)

/-- One record of the dataset: a cell for each semantically relevant column.
A `Cell.na` default makes sparse example rows readable. -/
structure Row where
  lastCallTs : Cell := .na
  lastCallTags : Cell := .na
  emailStatus : Cell := .na
  lifecycle : Cell := .na
  lastActivity : Cell := .na
  campaign : Cell := .na
  jobTitle : Cell := .na
  sector : Cell := .na
  companySize : Cell := .na
  location : Cell := .na
deriving DecidableEq, Repr

/-- Which columns are present in the DataFrame.  `pandas` distinguishes a
column that is absent (access raises `KeyError`) from a present column whose
cells are NaN; the flags record column presence. -/
structure Cols where
  hasCallTs : Bool := true
  hasTags : Bool := true
  hasEmail : Bool := true
  hasLifecycle : Bool := true
  hasActivity : Bool := true
  hasCampaign : Bool := true
  hasTitle : Bool := true
  hasSector : Bool := true
  hasSize : Bool := true
  hasLocation : Bool := true
deriving DecidableEq, Repr

/-- A DataFrame: the set of present columns and the list of rows. -/
structure DataFrame where
  cols : Cols
  rows : List Row
deriving DecidableEq, Repr

/-- Reading a column after `compute_metrics` has inserted every missing
expected column as NaN: an absent column reads as `Cell.na`. -/
def getCell (present : Bool) (c : Cell) : Cell :=
  if present then c else .na

/-- Mask `called_mask` of `compute_metrics`: the call timestamp is not NaN. -/
def called_mask (p : Cols) (r : Row) : Bool :=
  (getCell p.hasCallTs r.lastCallTs).notna

/-- The per-row tag list (`tags_series`) of `compute_metrics`. -/
def tags_of (p : Cols) (r : Row) : List String :=
  _split_tags (getCell p.hasTags r.lastCallTags)

/-- Mask `connected_mask` of `compute_metrics`. -/
def connected_mask (p : Cols) (r : Row) : Bool :=
  has_any_tag (tags_of p r) CALL_TAGS_CONNECTED && called_mask p r

/-- Mask `pitched_mask` of `compute_metrics`. -/
def pitched_mask (p : Cols) (r : Row) : Bool :=
  has_any_tag (tags_of p r) CALL_TAGS_PITCHED && called_mask p r

/-- Mask `rdv_phone_mask` of `compute_metrics`. -/
def rdv_phone_mask (p : Cols) (r : Row) : Bool :=
  has_any_tag (tags_of p r) CALL_TAGS_RDV && called_mask p r

/-- Mask `mailed_mask` of `compute_metrics`: `fillna("") != ""`, i.e. the lemlist
lead status is a non-empty string. -/
def mailed_mask (p : Cols) (r : Row) : Bool :=
  match getCell p.hasEmail r.emailStatus with
  | .na => false
  | .str s => s ≠ ""
  | .ts _ => true

/-- Mask `rdv_email_mask` of `compute_metrics`. -/
def rdv_email_mask (p : Cols) (r : Row) : Bool :=
  cellEqStr (getCell p.hasLifecycle r.lifecycle) "RDV - Bon contact"
    && cellEqStr (getCell p.hasEmail r.emailStatus) "Email replied"
    && !(rdv_phone_mask p r)

/-- The output record of `compute_metrics` (the keys of the returned dict). -/
structure Metrics where
  calls_total : Nat
  calls_connected : Nat
  calls_pitched : Nat
  rdv_phone : Nat
  connection_rate : ℚ
  pitch_rate : ℚ
  rdv_phone_rate : ℚ
  contacts_email : Nat
  contacts_opened : Nat
  contacts_replied : Nat
  open_rate : ℚ
  reply_rate : ℚ
  rdv_email : Nat
  rdv_total : Nat
  email_conv_rate : ℚ
  phone_conv_rate : ℚ
  overall_conv_rate : ℚ
deriving DecidableEq, Repr

/-- Model of `compute_metrics`.  Missing expected columns are inserted as
NaN (`getCell`), counts are mask sums, every rate guards its denominator as
the source does, and `overall_conv_rate` uses the
`max(contacts_email + calls_total - overlap, 1)` denominator. -/
def compute_metrics (df : DataFrame) : Metrics :=
  let p := df.cols
  let calls_total := df.rows.countP (called_mask p)
  let calls_connected := df.rows.countP (connected_mask p)
  let calls_pitched := df.rows.countP (pitched_mask p)
  let rdv_phone := df.rows.countP (rdv_phone_mask p)
  let connection_rate : ℚ := if calls_total = 0 then 0 else (calls_connected : ℚ) / calls_total
  let pitch_rate : ℚ := if calls_connected = 0 then 0 else (calls_pitched : ℚ) / calls_connected
  let rdv_phone_rate : ℚ := if calls_total = 0 then 0 else (rdv_phone : ℚ) / calls_total
  let contacts_email := df.rows.countP (mailed_mask p)
  let contacts_opened := df.rows.countP (fun r => cellEqStr (getCell p.hasEmail r.emailStatus) "Email opened")
  let contacts_replied := df.rows.countP (fun r => cellEqStr (getCell p.hasEmail r.emailStatus) "Email replied")
  let open_rate : ℚ := if contacts_email = 0 then 0 else (contacts_opened : ℚ) / contacts_email
  let reply_rate : ℚ := if contacts_email = 0 then 0 else (contacts_replied : ℚ) / contacts_email
  let rdv_email := df.rows.countP (rdv_email_mask p)
  let rdv_total := rdv_phone + rdv_email
  let email_conv_rate : ℚ := if contacts_email = 0 then 0 else (rdv_email : ℚ) / contacts_email
  let phone_conv_rate : ℚ := if calls_total = 0 then 0 else (rdv_phone : ℚ) / calls_total
  let overlap := df.rows.countP (fun r => rdv_email_mask p r && called_mask p r)
  let overall_conv_rate : ℚ :=
    (rdv_total : ℚ) / ((max ((contacts_email : Int) + calls_total - overlap) 1 : Int) : ℚ)
  { calls_total := calls_total
    calls_connected := calls_connected
    calls_pitched := calls_pitched
    rdv_phone := rdv_phone
    connection_rate := connection_rate
    pitch_rate := pitch_rate
    rdv_phone_rate := rdv_phone_rate
    contacts_email := contacts_email
    contacts_opened := contacts_opened
    contacts_replied := contacts_replied
    open_rate := open_rate
    reply_rate := reply_rate
    rdv_email := rdv_email
    rdv_total := rdv_total
    email_conv_rate := email_conv_rate
    phone_conv_rate := phone_conv_rate
    overall_conv_rate := overall_conv_rate }

example : _split_tags (.str "Meeting, Pitch") = ["Meeting", "Pitch"] := by decide
example : _split_tags (.str " Standard ;| No answer") = ["Standard", "No answer"] := by decide
example : _split_tags .na = [] := by rfl
example :
    (compute_metrics ⟨{}, [{ lastCallTs := .ts 0, lastCallTags := .str "Meeting, Pitch" },
                           { lastCallTs := .ts 1, lastCallTags := .str "Standard" },
                           { lastCallTags := .str "Pitch" }]⟩).calls_total = 2 := by decide
example :
    (compute_metrics ⟨{}, [{ lastCallTs := .ts 0, lastCallTags := .str "Meeting, Pitch" },
                           { lastCallTs := .ts 1, lastCallTags := .str "Standard" },
                           { lastCallTags := .str "Pitch" }]⟩).calls_pitched = 1 := by decide

/-- Lexicographic order on character lists by code point (Python's string
comparison). -/
def lexLe (a b : List Char) : Bool :=
  match a, b with
  | [], _ => true
  | _ :: _, [] => false
  | c :: cs, d :: ds => if c = d then lexLe cs ds else decide (c.val < d.val)

deriving instance DecidableEq for Except

/-- One row of the distribution table returned by
`compute_call_distribution`: tag, contact count and rate. -/
structure DistRow where
  tag : String
  count : Nat
  rate : ℚ
deriving DecidableEq, Repr

/-- The sort key of `compute_call_distribution`: count descending, tie
broken by tag ascending (Python's `key=lambda item: (-item[1], item[0])`). -/
def distLe (a b : DistRow) : Bool :=
  b.count < a.count || (a.count = b.count && lexLe a.tag.data b.tag.data)

/-- Insertion into a list sorted by `le`. -/
def insertBy (le : α → α → Bool) (x : α) : List α → List α
  | [] => [x]
  | y :: ys => if le x y then x :: y :: ys else y :: insertBy le x ys

/-- Insertion sort by `le` (models Python's `sorted`; the distribution sort
key is a total strict order on distinct tags, so any correct sort agrees). -/
def sortBy (le : α → α → Bool) : List α → List α
  | [] => []
  | x :: xs => insertBy le x (sortBy le xs)

/-- The distinct tags over all rows in first-occurrence order (the keys of
the `tag_counts` dict). -/
def distinctTags (rows : List Row) : List String :=
  ((rows.map (fun r => _split_tags r.lastCallTags)).flatten).eraseDups

/-- Model of `compute_call_distribution`.  The source reads the timestamp
and tag columns without the missing-column guard of `compute_metrics`, so a
missing column on the paths that reach those reads is a `KeyError`, embedded
as `Except.error`.  Each contact contributes once per distinct tag
(`unique_tags = set(tags)`); the rate divides by the number of rows with a
call timestamp. -/
def compute_call_distribution (df : DataFrame) : Except String (List DistRow) :=
  if df.rows.isEmpty then .ok []
  else if !df.cols.hasCallTs then .error "KeyError: Last Aircall call timestamp"
  else
    let total_calls := df.rows.countP (fun r => r.lastCallTs.notna)
    if total_calls = 0 then .ok []
    else if !df.cols.hasTags then .error "KeyError: Last used Aircall tags"
    else
      let entries := (distinctTags df.rows).map (fun t =>
        let count := df.rows.countP (fun r => (_split_tags r.lastCallTags).contains t)
        DistRow.mk t count ((count : ℚ) / total_calls))
      .ok (sortBy distLe entries)

/-- The filter criteria of `apply_filters`: one optional allowed-value list
per categorical dimension (the empty list models both `None` and `[]`,
which Python's `if values:` treats alike) and optional date bounds. -/
structure Criteria where
  campaigns : List String := []
  titles : List String := []
  sectors : List String := []
  sizes : List String := []
  locations : List String := []
  start_date : Option Int := none
  end_date : Option Int := none
deriving DecidableEq, Repr

/-- Model of a digit run for the date parser. -/
def digitsToNat? (l : List Char) : Option Nat :=
  if l ≠ [] && l.all Char.isDigit then
    some (l.foldl (fun n c => n * 10 + (c.toNat - '0'.toNat)) 0)
  else none

/-- Split a character list on a fixed separator character. -/
def splitOnChar (sep : Char) (cs : List Char) (acc : List Char) : List (List Char) :=
  match cs with
  | [] => [acc.reverse]
  | c :: rest =>
    if c = sep then acc.reverse :: splitOnChar sep rest []
    else splitOnChar sep rest (c :: acc)

/-- Model of `pd.to_datetime` on one string: an ISO `YYYY-MM-DD` date
parses to the instant `y*10000 + m*100 + d` (chronological order is
preserved for calendar dates); anything else is unparseable. -/
def parseDate (s : String) : Option Int :=
  match (splitOnChar '-' s.data []).map digitsToNat? with
  | [some y, some m, some d] => some ((y * 10000 + m * 100 + d : Nat) : Int)
  | _ => none

/-- Model of `pd.to_datetime(cell, errors="coerce")`: NaN stays NaN, a
timestamp stays itself, a string parses or coerces to NaT. -/
def toDatetime : Cell → Cell
  | .na => .na
  | .ts t => .ts t
  | .str s =>
    match parseDate s with
    | some t => .ts t
    | none => .na

/-- The unconditional date-column conversion at the top of `apply_filters`:
each of the two date columns, when present, is converted with
`pd.to_datetime(..., errors="coerce")`. -/
def coerceRow (p : Cols) (r : Row) : Row :=
  { r with
    lastCallTs := if p.hasCallTs then toDatetime r.lastCallTs else r.lastCallTs
    lastActivity := if p.hasActivity then toDatetime r.lastActivity else r.lastActivity }

/-- Test `notna ∧ value ≥ bound` on a converted date cell (after `toDatetime`
the cell is `na` or `ts`). -/
def Cell.tsGe (c : Cell) (bound : Int) : Bool :=
  match c with
  | .ts t => bound ≤ t
  | _ => false

/-- Test `notna ∧ value ≤ bound` on a converted date cell. -/
def Cell.tsLe (c : Cell) (bound : Int) : Bool :=
  match c with
  | .ts t => t ≤ bound
  | _ => false

/-- Mask `mask_call | mask_email` of the start-date branch of `apply_filters`
(an absent column contributes an all-False mask). -/
def startPred (p : Cols) (s : Int) (r : Row) : Bool :=
  (p.hasCallTs && r.lastCallTs.tsGe s) || (p.hasActivity && r.lastActivity.tsGe s)

/-- Mask `mask_call | mask_email` of the end-date branch of `apply_filters`. -/
def endPred (p : Cols) (e : Int) (r : Row) : Bool :=
  (p.hasCallTs && r.lastCallTs.tsLe e) || (p.hasActivity && r.lastActivity.tsLe e)

/-- One date-filter step of the index-free model:
`data[mask | (mask.sum() == 0)]` keeps the rows matching the mask, or every
row when no row matches.  This drops the label alignment of the pandas
boolean indexer, which is exact when the mask is built on the frame's own
index (always the case for a single application to a freshly indexed
frame); `dateStepIndexed` below keeps the labels. -/
def dateStep (pred : Row → Bool) (rows : List Row) : List Row :=
  if rows.any pred then rows.filter pred else rows

/-- Test `fillna("").isin(values)` on one cell: NaN participates as the empty
string; a timestamp never equals a string of the list. -/
def cellInVals (c : Cell) (vs : List String) : Bool :=
  match c with
  | .na => vs.contains ""
  | .str s => vs.contains s
  | .ts _ => false

/-- Model of the inner helper `filter_if_possible` of `apply_filters`:
filter only when the allowed-value list is truthy and the column exists. -/
def filter_if_possible (present : Bool) (get : Row → Cell) (values : List String)
    (rows : List Row) : List Row :=
  if values ≠ [] ∧ present then rows.filter (fun r => cellInVals (get r) values) else rows

/-- Model of `apply_filters` in the index-free semantics: convert the two
date columns, then the start bound, the end bound, and the five categorical
filters in the source's order (campaign, title, sector, size, location).
Exact for one application to a frame with a fresh `RangeIndex`; the
label-aware `apply_filters_indexed` below also models the pandas
`IndexingError` path that a re-application can hit. -/
def apply_filters (df : DataFrame) (c : Criteria) : DataFrame :=
  let p := df.cols
  let rows0 := df.rows.map (coerceRow p)
  let rows1 := match c.start_date with
    | none => rows0
    | some s => dateStep (startPred p s) rows0
  let rows2 := match c.end_date with
    | none => rows1
    | some e => dateStep (endPred p e) rows1
  let rows3 := filter_if_possible p.hasCampaign (fun r => r.campaign) c.campaigns rows2
  let rows4 := filter_if_possible p.hasTitle (fun r => r.jobTitle) c.titles rows3
  let rows5 := filter_if_possible p.hasSector (fun r => r.sector) c.sectors rows4
  let rows6 := filter_if_possible p.hasSize (fun r => r.companySize) c.sizes rows5
  let rows7 := filter_if_possible p.hasLocation (fun r => r.location) c.locations rows6
  ⟨p, rows7⟩

example : parseDate "2024-03-05" = some 20240305 := by decide
example : parseDate "hello" = none := by decide
example :
    compute_call_distribution ⟨{}, [{ lastCallTs := .ts 0, lastCallTags := .str "Meeting, Pitch" },
                                    { lastCallTs := .ts 1, lastCallTags := .str "Standard" },
                                    { lastCallTags := .str "Pitch" }]⟩
      = .ok [⟨"Pitch", 2, 1⟩, ⟨"Meeting", 1, 1/2⟩, ⟨"Standard", 1, 1/2⟩] := by
  simp +decide [compute_call_distribution, distinctTags, sortBy, insertBy, distLe, lexLe,
    _split_tags, splitChars, trimChars, isDelim, Cell.asString, Cell.notna, List.countP,
    List.countP.go, List.eraseDups, List.dropWhile]

/-- Datasets / criteria used as concrete inputs by the claim theorems. -/
def dfMissingTagsCol : DataFrame :=
  ⟨{ hasTags := false }, [{ lastCallTs := .ts 0 }]⟩

/-- A dataset with one called row and two uncalled rows tagged `Pitch`. -/
def dfTagsWithoutCalls : DataFrame :=
  ⟨{}, [{ lastCallTs := .ts 0 },
        { lastCallTags := .str "Pitch" },
        { lastCallTags := .str "Pitch" }]⟩

/-- Claim C5's counting predicate, written from the spec's words: lifecycle
phase exactly `"RDV - Bon contact"`, email lead status exactly
`"Email replied"`, and the row is not both called and carrying a tag of
`CALL_TAGS_RDV`. -/
def rdv_email_spec_pred (p : Cols) (r : Row) : Bool :=
  cellEqStr (getCell p.hasLifecycle r.lifecycle) "RDV - Bon contact"
    && cellEqStr (getCell p.hasEmail r.emailStatus) "Email replied"
    && !(called_mask p r && has_any_tag (tags_of p r) CALL_TAGS_RDV)

/-- A row with a Meeting tag but no call timestamp, replied and in the RDV
lifecycle phase. -/
def dfMeetingTagNoCall : DataFrame :=
  ⟨{}, [{ lastCallTags := .str "Meeting",
          emailStatus := .str "Email replied",
          lifecycle := .str "RDV - Bon contact" }]⟩

/-- C1: `compute_call_distribution` reads the tag column without the
missing-column guard of `compute_metrics`: on a non-empty dataset with a
called row and no `Last used Aircall tags` column it raises `KeyError`
instead of degrading to a zero contribution. -/
theorem compute_call_distribution_missing_column_raises :
    compute_call_distribution dfMissingTagsCol
        = .error "KeyError: Last used Aircall tags"
      ∧ dfMissingTagsCol.rows ≠ [] := by
  exact ⟨rfl, by decide⟩

/-- C9: on the empty dataset (any column layout), `compute_metrics` returns
the all-zero metrics and `compute_call_distribution` returns the empty
table. -/
theorem empty_dataset_all_zero (p : Cols) :
    compute_metrics ⟨p, []⟩ = ⟨0, 0, 0, 0, 0, 0, 0, 0, 0, 0, 0, 0, 0, 0, 0, 0, 0⟩
      ∧ compute_call_distribution ⟨p, []⟩ = .ok [] := by
  refine ⟨?_, rfl⟩
  simp [compute_metrics]

/-- C10: a dataset where rows carry tags without a call timestamp makes a
distribution rate exceed 1: here `calls_total = 1` but the `Pitch` token is
counted on 2 rows, so its rate is 2. -/
theorem distribution_rate_can_exceed_one :
    dfTagsWithoutCalls.rows.countP (fun r => r.lastCallTs.notna) = 1
      ∧ compute_call_distribution dfTagsWithoutCalls = .ok [⟨"Pitch", 2, 2⟩]
      ∧ (1 : ℚ) < 2 := by
  refine ⟨by decide, ?_, by norm_num⟩
  simp +decide [compute_call_distribution, distinctTags, sortBy, insertBy, distLe, lexLe,
    _split_tags, splitChars, trimChars, isDelim, Cell.asString, Cell.notna, List.countP,
    List.countP.go, List.eraseDups, List.dropWhile]

/-- C5: the `rdv_email` count is exactly the number of rows in the claim's
predicate (replied, RDV lifecycle, and not a called row carrying an
RDV-phone tag); in particular a Meeting tag without a call timestamp does
not exclude a row. -/
theorem rdv_email_counts_spec_pred (df : DataFrame) :
    (compute_metrics df).rdv_email = df.rows.countP (rdv_email_spec_pred df.cols)
      ∧ (compute_metrics dfMeetingTagNoCall).rdv_email = 1 := by
  constructor
  · show df.rows.countP (rdv_email_mask df.cols) = _
    refine List.countP_congr (fun r _ => ?_)
    simp [rdv_email_mask, rdv_email_spec_pred, rdv_phone_mask, Bool.and_comm]
  · decide

/-- Any tag of `CALL_TAGS_RDV` is a tag of `CALL_TAGS_PITCHED`. -/
theorem rdv_tags_sub_pitched (t : String) :
    CALL_TAGS_RDV.contains t → CALL_TAGS_PITCHED.contains t := by
  simp [CALL_TAGS_RDV, CALL_TAGS_PITCHED]
  exact fun h => Or.inl h

/-- Any tag of `CALL_TAGS_PITCHED` is a tag of `CALL_TAGS_CONNECTED`. -/
theorem pitched_tags_sub_connected (t : String) :
    CALL_TAGS_PITCHED.contains t → CALL_TAGS_CONNECTED.contains t := by
  simp [CALL_TAGS_PITCHED, CALL_TAGS_CONNECTED]
  tauto

/-- `has_any_tag` is monotone in the vocabulary. -/
theorem has_any_tag_mono {tags voc voc' : List String}
    (h : ∀ t, voc.contains t → voc'.contains t) :
    has_any_tag tags voc → has_any_tag tags voc' := by
  simp only [has_any_tag, List.any_eq_true]
  exact fun ⟨t, ht, hv⟩ => ⟨t, ht, h t hv⟩

/-- C6: the nested tag vocabularies give the funnel chain
`rdv_phone ≤ calls_pitched ≤ calls_connected ≤ calls_total`. -/
theorem funnel_chain (df : DataFrame) :
    (compute_metrics df).rdv_phone ≤ (compute_metrics df).calls_pitched
      ∧ (compute_metrics df).calls_pitched ≤ (compute_metrics df).calls_connected
      ∧ (compute_metrics df).calls_connected ≤ (compute_metrics df).calls_total := by
  refine ⟨List.countP_mono_left fun r _ h => ?_,
          List.countP_mono_left fun r _ h => ?_,
          List.countP_mono_left fun r _ h => ?_⟩
  · simp only [rdv_phone_mask, pitched_mask, Bool.and_eq_true] at h ⊢
    exact ⟨has_any_tag_mono rdv_tags_sub_pitched h.1, h.2⟩
  · simp only [pitched_mask, connected_mask, Bool.and_eq_true] at h ⊢
    exact ⟨has_any_tag_mono pitched_tags_sub_connected h.1, h.2⟩
  · simp only [connected_mask, Bool.and_eq_true] at h
    exact h.2

/-- Counting two pointwise-disjoint predicates, each implying a third,
bounds the sum of their counts by the third's count. -/
theorem countP_disjoint_add_le {α : Type} {p q c : α → Bool}
    (hpq : ∀ a, p a = true → q a = true → False)
    (hp : ∀ a, p a = true → c a = true)
    (hq : ∀ a, q a = true → c a = true) (l : List α) :
    l.countP p + l.countP q ≤ l.countP c := by
  induction l with
  | nil => simp
  | cons a l ih =>
    simp only [List.countP_cons]
    rcases hpa : p a <;> rcases hqa : q a <;> rcases hca : c a <;> simp_all <;> omega

/-- Bounds for a guarded rate `count / denom` with `count ≤ denom`. -/
theorem rate_guard_bounds (a b : Nat) (hab : a ≤ b) :
    0 ≤ (if b = 0 then (0 : ℚ) else (a : ℚ) / b)
      ∧ (if b = 0 then (0 : ℚ) else (a : ℚ) / b) ≤ 1 := by
  split
  · norm_num
  · next h =>
    have hb : (0 : ℚ) < b := by exact_mod_cast Nat.pos_of_ne_zero h
    exact ⟨by positivity, (div_le_one hb).mpr (by exact_mod_cast hab)⟩

/-- A guarded rate is zero when its denominator is zero. -/
theorem rate_guard_zero (a b : Nat) (h : b = 0) :
    (if b = 0 then (0 : ℚ) else (a : ℚ) / b) = 0 := by
  simp [h]

/-- A true `cellEqStr` comparison identifies the cell. -/
theorem cellEqStr_eq_str {c : Cell} {s : String} (h : cellEqStr c s = true) :
    c = .str s := by
  cases c with
  | na => simp [cellEqStr] at h
  | ts t => simp [cellEqStr] at h
  | str t => simp only [cellEqStr, beq_iff_eq] at h; rw [h]

/-- A row whose lead status equals a non-empty string counts as mailed. -/
theorem mailed_of_cellEq {p : Cols} {r : Row} {s : String} (hs : s ≠ "")
    (h : cellEqStr (getCell p.hasEmail r.emailStatus) s = true) :
    mailed_mask p r = true := by
  have hc := cellEqStr_eq_str h
  simp [mailed_mask, hc, hs]

/-- Field equations of `compute_metrics` (definitional). -/
theorem cm_calls_total (df : DataFrame) :
    (compute_metrics df).calls_total = df.rows.countP (called_mask df.cols) := rfl

theorem cm_calls_connected (df : DataFrame) :
    (compute_metrics df).calls_connected = df.rows.countP (connected_mask df.cols) := rfl

theorem cm_calls_pitched (df : DataFrame) :
    (compute_metrics df).calls_pitched = df.rows.countP (pitched_mask df.cols) := rfl

theorem cm_rdv_phone (df : DataFrame) :
    (compute_metrics df).rdv_phone = df.rows.countP (rdv_phone_mask df.cols) := rfl

theorem cm_contacts_email (df : DataFrame) :
    (compute_metrics df).contacts_email = df.rows.countP (mailed_mask df.cols) := rfl

theorem cm_contacts_opened (df : DataFrame) :
    (compute_metrics df).contacts_opened
      = df.rows.countP (fun r => cellEqStr (getCell df.cols.hasEmail r.emailStatus) "Email opened") := rfl

theorem cm_contacts_replied (df : DataFrame) :
    (compute_metrics df).contacts_replied
      = df.rows.countP (fun r => cellEqStr (getCell df.cols.hasEmail r.emailStatus) "Email replied") := rfl

theorem cm_rdv_email (df : DataFrame) :
    (compute_metrics df).rdv_email = df.rows.countP (rdv_email_mask df.cols) := rfl

theorem cm_rdv_total (df : DataFrame) :
    (compute_metrics df).rdv_total
      = df.rows.countP (rdv_phone_mask df.cols) + df.rows.countP (rdv_email_mask df.cols) := rfl

theorem cm_connection_rate (df : DataFrame) :
    (compute_metrics df).connection_rate
      = (if df.rows.countP (called_mask df.cols) = 0 then (0 : ℚ)
         else (df.rows.countP (connected_mask df.cols) : ℚ) / df.rows.countP (called_mask df.cols)) := rfl

theorem cm_pitch_rate (df : DataFrame) :
    (compute_metrics df).pitch_rate
      = (if df.rows.countP (connected_mask df.cols) = 0 then (0 : ℚ)
         else (df.rows.countP (pitched_mask df.cols) : ℚ) / df.rows.countP (connected_mask df.cols)) := rfl

theorem cm_rdv_phone_rate (df : DataFrame) :
    (compute_metrics df).rdv_phone_rate
      = (if df.rows.countP (called_mask df.cols) = 0 then (0 : ℚ)
         else (df.rows.countP (rdv_phone_mask df.cols) : ℚ) / df.rows.countP (called_mask df.cols)) := rfl

theorem cm_open_rate (df : DataFrame) :
    (compute_metrics df).open_rate
      = (if df.rows.countP (mailed_mask df.cols) = 0 then (0 : ℚ)
         else (df.rows.countP (fun r => cellEqStr (getCell df.cols.hasEmail r.emailStatus) "Email opened") : ℚ)
              / df.rows.countP (mailed_mask df.cols)) := rfl

theorem cm_reply_rate (df : DataFrame) :
    (compute_metrics df).reply_rate
      = (if df.rows.countP (mailed_mask df.cols) = 0 then (0 : ℚ)
         else (df.rows.countP (fun r => cellEqStr (getCell df.cols.hasEmail r.emailStatus) "Email replied") : ℚ)
              / df.rows.countP (mailed_mask df.cols)) := rfl

theorem cm_email_conv_rate (df : DataFrame) :
    (compute_metrics df).email_conv_rate
      = (if df.rows.countP (mailed_mask df.cols) = 0 then (0 : ℚ)
         else (df.rows.countP (rdv_email_mask df.cols) : ℚ) / df.rows.countP (mailed_mask df.cols)) := rfl

theorem cm_phone_conv_rate (df : DataFrame) :
    (compute_metrics df).phone_conv_rate
      = (if df.rows.countP (called_mask df.cols) = 0 then (0 : ℚ)
         else (df.rows.countP (rdv_phone_mask df.cols) : ℚ) / df.rows.countP (called_mask df.cols)) := rfl

theorem cm_overall_conv_rate (df : DataFrame) :
    (compute_metrics df).overall_conv_rate
      = (((df.rows.countP (rdv_phone_mask df.cols) + df.rows.countP (rdv_email_mask df.cols) : ℕ) : ℚ)
         / ((max ((df.rows.countP (mailed_mask df.cols) : Int) + df.rows.countP (called_mask df.cols)
                  - df.rows.countP (fun r => rdv_email_mask df.cols r && called_mask df.cols r)) 1 : Int) : ℚ)) := rfl

/-- Split a true Boolean conjunction. -/
theorem band_elim {a b : Bool} (h : (a && b) = true) : a = true ∧ b = true := by
  simp only [Bool.and_eq_true] at h; exact h

/-- Build a true Boolean conjunction. -/
theorem band_intro {a b : Bool} (h1 : a = true) (h2 : b = true) : (a && b) = true := by
  simp [h1, h2]

/-- Pointwise: a connected call is a call. -/
theorem connected_le_called (df : DataFrame) :
    df.rows.countP (connected_mask df.cols) ≤ df.rows.countP (called_mask df.cols) :=
  List.countP_mono_left fun _ _ h => (band_elim h).2

/-- Pointwise: a pitched call is a connected call. -/
theorem pitched_le_connected (df : DataFrame) :
    df.rows.countP (pitched_mask df.cols) ≤ df.rows.countP (connected_mask df.cols) :=
  List.countP_mono_left fun r _ h => by
    rcases band_elim h with ⟨h1, h2⟩
    exact band_intro (has_any_tag_mono pitched_tags_sub_connected h1) h2

/-- Pointwise: a phone RDV is a call. -/
theorem rdv_phone_le_called (df : DataFrame) :
    df.rows.countP (rdv_phone_mask df.cols) ≤ df.rows.countP (called_mask df.cols) :=
  List.countP_mono_left fun _ _ h => (band_elim h).2

/-- Pointwise: an email RDV row has a non-empty lead status. -/
theorem rdv_email_le_mailed (df : DataFrame) :
    df.rows.countP (rdv_email_mask df.cols) ≤ df.rows.countP (mailed_mask df.cols) :=
  List.countP_mono_left fun r _ h => by
    rcases band_elim h with ⟨h1, _⟩
    exact mailed_of_cellEq (by decide) (band_elim h1).2

/-- The phone-RDV rows and the called email-RDV rows are disjoint row sets
inside the called rows. -/
theorem rdv_phone_add_overlap_le_called (df : DataFrame) :
    df.rows.countP (rdv_phone_mask df.cols)
        + df.rows.countP (fun r => rdv_email_mask df.cols r && called_mask df.cols r)
      ≤ df.rows.countP (called_mask df.cols) := by
  refine countP_disjoint_add_le (fun r h1 h2 => ?_) (fun r h => (band_elim h).2)
    (fun r h => (band_elim h).2) df.rows
  have hmask := (band_elim h2).1
  have hnot := (band_elim hmask).2
  have h1m : rdv_phone_mask df.cols r = true := h1
  rw [h1m] at hnot
  exact Bool.false_ne_true hnot

/-- C2: every rate of the metrics result lies in `[0, 1]`, collapses to
`0.0` when its defining denominator is zero, and every count is at most the
number of rows. -/
theorem metrics_rates_in_unit_interval_counts_bounded (df : DataFrame) :
    (0 ≤ (compute_metrics df).connection_rate ∧ (compute_metrics df).connection_rate ≤ 1)
      ∧ (0 ≤ (compute_metrics df).pitch_rate ∧ (compute_metrics df).pitch_rate ≤ 1)
      ∧ (0 ≤ (compute_metrics df).rdv_phone_rate ∧ (compute_metrics df).rdv_phone_rate ≤ 1)
      ∧ (0 ≤ (compute_metrics df).open_rate ∧ (compute_metrics df).open_rate ≤ 1)
      ∧ (0 ≤ (compute_metrics df).reply_rate ∧ (compute_metrics df).reply_rate ≤ 1)
      ∧ (0 ≤ (compute_metrics df).email_conv_rate ∧ (compute_metrics df).email_conv_rate ≤ 1)
      ∧ (0 ≤ (compute_metrics df).phone_conv_rate ∧ (compute_metrics df).phone_conv_rate ≤ 1)
      ∧ (0 ≤ (compute_metrics df).overall_conv_rate ∧ (compute_metrics df).overall_conv_rate ≤ 1)
      ∧ ((compute_metrics df).calls_total = 0 → (compute_metrics df).connection_rate = 0)
      ∧ ((compute_metrics df).calls_connected = 0 → (compute_metrics df).pitch_rate = 0)
      ∧ ((compute_metrics df).calls_total = 0 → (compute_metrics df).rdv_phone_rate = 0)
      ∧ ((compute_metrics df).contacts_email = 0 → (compute_metrics df).open_rate = 0)
      ∧ ((compute_metrics df).contacts_email = 0 → (compute_metrics df).reply_rate = 0)
      ∧ ((compute_metrics df).contacts_email = 0 → (compute_metrics df).email_conv_rate = 0)
      ∧ ((compute_metrics df).calls_total = 0 → (compute_metrics df).phone_conv_rate = 0)
      ∧ ((compute_metrics df).contacts_email = 0 ∧ (compute_metrics df).calls_total = 0 →
          (compute_metrics df).overall_conv_rate = 0)
      ∧ (compute_metrics df).calls_total ≤ df.rows.length
      ∧ (compute_metrics df).calls_connected ≤ df.rows.length
      ∧ (compute_metrics df).calls_pitched ≤ df.rows.length
      ∧ (compute_metrics df).rdv_phone ≤ df.rows.length
      ∧ (compute_metrics df).contacts_email ≤ df.rows.length
      ∧ (compute_metrics df).contacts_opened ≤ df.rows.length
      ∧ (compute_metrics df).contacts_replied ≤ df.rows.length
      ∧ (compute_metrics df).rdv_email ≤ df.rows.length
      ∧ (compute_metrics df).rdv_total ≤ df.rows.length := by
  have hopen_le : df.rows.countP (fun r => cellEqStr (getCell df.cols.hasEmail r.emailStatus) "Email opened")
      ≤ df.rows.countP (mailed_mask df.cols) :=
    List.countP_mono_left fun r _ h => mailed_of_cellEq (by decide) h
  have hreply_le : df.rows.countP (fun r => cellEqStr (getCell df.cols.hasEmail r.emailStatus) "Email replied")
      ≤ df.rows.countP (mailed_mask df.cols) :=
    List.countP_mono_left fun r _ h => mailed_of_cellEq (by decide) h
  have hoverall : 0 ≤ (compute_metrics df).overall_conv_rate ∧ (compute_metrics df).overall_conv_rate ≤ 1 := by
    rw [cm_overall_conv_rate]
    have h1 : ((df.rows.countP (rdv_phone_mask df.cols) : Int)
        + df.rows.countP (fun r => rdv_email_mask df.cols r && called_mask df.cols r))
        ≤ df.rows.countP (called_mask df.cols) := by
      exact_mod_cast rdv_phone_add_overlap_le_called df
    have h2 : ((df.rows.countP (rdv_email_mask df.cols) : Int)) ≤ df.rows.countP (mailed_mask df.cols) := by
      exact_mod_cast rdv_email_le_mailed df
    have hN : ((df.rows.countP (rdv_phone_mask df.cols) + df.rows.countP (rdv_email_mask df.cols) : ℕ) : Int)
        ≤ max ((df.rows.countP (mailed_mask df.cols) : Int) + df.rows.countP (called_mask df.cols)
               - df.rows.countP (fun r => rdv_email_mask df.cols r && called_mask df.cols r)) 1 := by
      have hm := le_max_left ((df.rows.countP (mailed_mask df.cols) : Int)
        + df.rows.countP (called_mask df.cols)
        - df.rows.countP (fun r => rdv_email_mask df.cols r && called_mask df.cols r)) (1 : Int)
      push_cast
      omega
    have hD : (1 : Int) ≤ max ((df.rows.countP (mailed_mask df.cols) : Int)
        + df.rows.countP (called_mask df.cols)
        - df.rows.countP (fun r => rdv_email_mask df.cols r && called_mask df.cols r)) 1 :=
      le_max_right _ _
    have hDq : (0 : ℚ) < ((max ((df.rows.countP (mailed_mask df.cols) : Int)
        + df.rows.countP (called_mask df.cols)
        - df.rows.countP (fun r => rdv_email_mask df.cols r && called_mask df.cols r)) 1 : Int) : ℚ) := by
      exact_mod_cast lt_of_lt_of_le Int.zero_lt_one hD
    constructor
    · positivity
    · exact (div_le_one hDq).mpr (by exact_mod_cast hN)
  have hoverall_zero : (compute_metrics df).contacts_email = 0 ∧ (compute_metrics df).calls_total = 0 →
      (compute_metrics df).overall_conv_rate = 0 := by
    rw [cm_contacts_email, cm_calls_total, cm_overall_conv_rate]
    rintro ⟨hE, hC⟩
    have hP : df.rows.countP (rdv_phone_mask df.cols) = 0 :=
      Nat.le_zero.mp (hC ▸ rdv_phone_le_called df)
    have hEm : df.rows.countP (rdv_email_mask df.cols) = 0 :=
      Nat.le_zero.mp (hE ▸ rdv_email_le_mailed df)
    rw [hP, hEm]
    simp
  refine ⟨?_, ?_, ?_, ?_, ?_, ?_, ?_, hoverall, ?_, ?_, ?_, ?_, ?_, ?_, ?_, hoverall_zero,
    ?_, ?_, ?_, ?_, ?_, ?_, ?_, ?_, ?_⟩
  · rw [cm_connection_rate]; exact rate_guard_bounds _ _ (connected_le_called df)
  · rw [cm_pitch_rate]; exact rate_guard_bounds _ _ (pitched_le_connected df)
  · rw [cm_rdv_phone_rate]; exact rate_guard_bounds _ _ (rdv_phone_le_called df)
  · rw [cm_open_rate]; exact rate_guard_bounds _ _ hopen_le
  · rw [cm_reply_rate]; exact rate_guard_bounds _ _ hreply_le
  · rw [cm_email_conv_rate]; exact rate_guard_bounds _ _ (rdv_email_le_mailed df)
  · rw [cm_phone_conv_rate]; exact rate_guard_bounds _ _ (rdv_phone_le_called df)
  · rw [cm_calls_total, cm_connection_rate]; exact fun h => rate_guard_zero _ _ h
  · rw [cm_calls_connected, cm_pitch_rate]; exact fun h => rate_guard_zero _ _ h
  · rw [cm_calls_total, cm_rdv_phone_rate]; exact fun h => rate_guard_zero _ _ h
  · rw [cm_contacts_email, cm_open_rate]; exact fun h => rate_guard_zero _ _ h
  · rw [cm_contacts_email, cm_reply_rate]; exact fun h => rate_guard_zero _ _ h
  · rw [cm_contacts_email, cm_email_conv_rate]; exact fun h => rate_guard_zero _ _ h
  · rw [cm_calls_total, cm_phone_conv_rate]; exact fun h => rate_guard_zero _ _ h
  · rw [cm_calls_total]; exact List.countP_le_length _
  · rw [cm_calls_connected]; exact List.countP_le_length _
  · rw [cm_calls_pitched]; exact List.countP_le_length _
  · rw [cm_rdv_phone]; exact List.countP_le_length _
  · rw [cm_contacts_email]; exact List.countP_le_length _
  · rw [cm_contacts_opened]; exact List.countP_le_length _
  · rw [cm_contacts_replied]; exact List.countP_le_length _
  · rw [cm_rdv_email]; exact List.countP_le_length _
  · rw [cm_rdv_total]
    have := countP_disjoint_add_le (p := rdv_phone_mask df.cols) (q := rdv_email_mask df.cols)
      (c := fun _ => true) (fun r h1 h2 => ?_) (fun r _ => rfl) (fun r _ => rfl) df.rows
    · simpa using this
    · have hnot := (band_elim h2).2
      rw [h1] at hnot
      exact Bool.false_ne_true hnot

/-- A categorical filter whose allowed-value list, when truthy, targets an
absent column leaves the rows unchanged. -/
theorem filter_if_possible_noop {present : Bool} {get : Row → Cell} {values : List String}
    (h : values ≠ [] → present = false) (rows : List Row) :
    filter_if_possible present get values rows = rows := by
  unfold filter_if_possible
  split
  · next hcond => exact absurd hcond.2 (by simp [h hcond.1])
  · rfl

/-- C8 counterexample input: a dataset whose call-timestamp column holds an
unparsed date string, with no campaign column. -/
def dfStringDateNoCampaignCol : DataFrame :=
  ⟨{ hasCampaign := false }, [{ lastCallTs := .str "2024-03-05" }]⟩

/-- C8 as stated is false: even a no-op categorical filter on an absent
column returns a changed dataset, because `apply_filters` unconditionally
re-parses the two date columns. -/
theorem absent_column_filter_not_literally_unchanged :
    apply_filters dfStringDateNoCampaignCol { campaigns := ["Campagne A"] }
      ≠ dfStringDateNoCampaignCol := by decide

/-- C8 amended: with no date bounds and every truthy categorical list
aimed at an absent column, `apply_filters` keeps every row and only
re-parses the date columns; when the date cells are already parsed or
absent it returns the dataset unchanged.  No error is raised (the function
is total). -/
theorem absent_column_categorical_filter_noop (df : DataFrame) (c : Criteria)
    (hs : c.start_date = none) (he : c.end_date = none)
    (h1 : c.campaigns ≠ [] → df.cols.hasCampaign = false)
    (h2 : c.titles ≠ [] → df.cols.hasTitle = false)
    (h3 : c.sectors ≠ [] → df.cols.hasSector = false)
    (h4 : c.sizes ≠ [] → df.cols.hasSize = false)
    (h5 : c.locations ≠ [] → df.cols.hasLocation = false) :
    apply_filters df c = ⟨df.cols, df.rows.map (coerceRow df.cols)⟩
      ∧ ((∀ r ∈ df.rows, coerceRow df.cols r = r) → apply_filters df c = df) := by
  have hmain : apply_filters df c = ⟨df.cols, df.rows.map (coerceRow df.cols)⟩ := by
    simp only [apply_filters, hs, he]
    rw [filter_if_possible_noop h1, filter_if_possible_noop h2, filter_if_possible_noop h3,
      filter_if_possible_noop h4, filter_if_possible_noop h5]
  refine ⟨hmain, fun hfix => ?_⟩
  rw [hmain]
  have : df.rows.map (coerceRow df.cols) = df.rows :=
    (List.map_congr_left hfix).trans (List.map_id df.rows)
  rw [this]

/-- Witness for the amended C8 at a concrete input. -/
theorem absent_column_categorical_filter_noop_witness :
    apply_filters ⟨{ hasCampaign := false }, [{ lastCallTs := .ts 5 }]⟩
        { campaigns := ["Campagne A"] }
      = ⟨{ hasCampaign := false }, [{ lastCallTs := .ts 5 }]⟩ :=
  (absent_column_categorical_filter_noop _ _ rfl rfl (fun _ => rfl)
    (fun h => absurd rfl h) (fun h => absurd rfl h) (fun h => absurd rfl h)
    (fun h => absurd rfl h)).2 (by decide)

/-- The instant carried by a raw cell, per the spec's words: a timestamp is
itself, a string is its parsed instant when parseable, NaN or an
unparseable string carry none. -/
def parseCell : Cell → Option Int
  | .na => none
  | .ts t => some t
  | .str s => parseDate s

/-- Claim C4's predicate for a start bound: at least one of the two
instants is present (column there) and parseable and `≥ start`. -/
def startMatches (p : Cols) (s : Int) (r : Row) : Bool :=
  (p.hasCallTs && (parseCell r.lastCallTs).any (fun t => decide (s ≤ t)))
    || (p.hasActivity && (parseCell r.lastActivity).any (fun t => decide (s ≤ t)))

/-- Claim C4's predicate for an end bound. -/
def endMatches (p : Cols) (e : Int) (r : Row) : Bool :=
  (p.hasCallTs && (parseCell r.lastCallTs).any (fun t => decide (t ≤ e)))
    || (p.hasActivity && (parseCell r.lastActivity).any (fun t => decide (t ≤ e)))

/-- Claim C4's phrase `neither instant is present or parseable`. -/
def noInstant (p : Cols) (r : Row) : Bool :=
  !(p.hasCallTs && (parseCell r.lastCallTs).isSome)
    && !(p.hasActivity && (parseCell r.lastActivity).isSome)

/-- The retained set as the claim describes it for a start bound: the
matching rows, except that the undated rows are retained exactly when the
matching set is empty. -/
def claim_start_retained (df : DataFrame) (s : Int) : List Row :=
  if (df.rows.filter (startMatches df.cols s)).isEmpty then
    df.rows.filter (noInstant df.cols)
  else df.rows.filter (startMatches df.cols s)

/-- C4 counterexample input: one row dated before the bound, one undated
row. -/
def dfDatedAndUndated : DataFrame :=
  ⟨{}, [{ lastCallTs := .ts 5 }, {}]⟩

/-- C4 as stated is false: with `start = 10`, no row matches, and the code
keeps ALL rows (also the row dated `5 < 10`), while the claim's description
keeps only the undated row. -/
theorem date_fallback_keeps_dated_rows :
    (apply_filters dfDatedAndUndated { start_date := some 10 }).rows.length = 2
      ∧ (claim_start_retained dfDatedAndUndated 10).length = 1
      ∧ (apply_filters dfDatedAndUndated { start_date := some 10 }).rows.length
          ≠ (claim_start_retained dfDatedAndUndated 10).length := by decide

/-- After conversion, the `notna ∧ ≥ bound` test equals the claim's
`parseable ∧ ≥ bound` test on the raw cell. -/
theorem tsGe_toDatetime (c : Cell) (s : Int) :
    (toDatetime c).tsGe s = (parseCell c).any (fun t => decide (s ≤ t)) := by
  cases c with
  | na => rfl
  | ts t => rfl
  | str v => cases h : parseDate v <;> simp [toDatetime, parseCell, Cell.tsGe, h]

/-- After conversion, the `notna ∧ ≤ bound` test equals the claim's
`parseable ∧ ≤ bound` test on the raw cell. -/
theorem tsLe_toDatetime (c : Cell) (e : Int) :
    (toDatetime c).tsLe e = (parseCell c).any (fun t => decide (t ≤ e)) := by
  cases c with
  | na => rfl
  | ts t => rfl
  | str v => cases h : parseDate v <;> simp [toDatetime, parseCell, Cell.tsLe, h]

/-- The code's start mask on a converted row is the claim's start predicate
on the raw row. -/
theorem startPred_coerce (p : Cols) (s : Int) (r : Row) :
    startPred p s (coerceRow p r) = startMatches p s r := by
  unfold startPred startMatches coerceRow
  cases hc : p.hasCallTs <;> cases ha : p.hasActivity <;>
    simp [tsGe_toDatetime]

/-- The code's end mask on a converted row is the claim's end predicate on
the raw row. -/
theorem endPred_coerce (p : Cols) (e : Int) (r : Row) :
    endPred p e (coerceRow p r) = endMatches p e r := by
  unfold endPred endMatches coerceRow
  cases hc : p.hasCallTs <;> cases ha : p.hasActivity <;>
    simp [tsLe_toDatetime]

/-- C4 amended: a lone start (resp. end) bound retains exactly the rows
with a present-and-parseable instant `≥ start` (resp. `≤ end`), except
that when NO row matches, every row — dated out of range or undated — is
retained; retained rows come out with their date columns re-parsed. -/
theorem date_filter_retained_characterization (df : DataFrame) (b : Int) :
    (apply_filters df { start_date := some b }).rows
        = (if df.rows.any (startMatches df.cols b)
           then (df.rows.filter (startMatches df.cols b)).map (coerceRow df.cols)
           else df.rows.map (coerceRow df.cols))
      ∧ (apply_filters df { end_date := some b }).rows
        = (if df.rows.any (endMatches df.cols b)
           then (df.rows.filter (endMatches df.cols b)).map (coerceRow df.cols)
           else df.rows.map (coerceRow df.cols)) := by
  constructor
  · show dateStep (startPred df.cols b) (df.rows.map (coerceRow df.cols)) = _
    have hf : startPred df.cols b ∘ coerceRow df.cols = startMatches df.cols b :=
      funext fun r => startPred_coerce df.cols b r
    unfold dateStep
    rw [List.any_map, List.filter_map, hf]
  · show dateStep (endPred df.cols b) (df.rows.map (coerceRow df.cols)) = _
    have hf : endPred df.cols b ∘ coerceRow df.cols = endMatches df.cols b :=
      funext fun r => endPred_coerce df.cols b r
    unfold dateStep
    rw [List.any_map, List.filter_map, hf]

/-- The conversion pass at the top of `apply_filters`, as a standalone
DataFrame step. -/
def coerceDF (df : DataFrame) : DataFrame :=
  ⟨df.cols, df.rows.map (coerceRow df.cols)⟩

/-- The campaign filter of `apply_filters` as a standalone step. -/
def campaignFilter (c : Criteria) (df : DataFrame) : DataFrame :=
  ⟨df.cols, filter_if_possible df.cols.hasCampaign (fun r => r.campaign) c.campaigns df.rows⟩

/-- The job-title filter of `apply_filters` as a standalone step. -/
def titleFilter (c : Criteria) (df : DataFrame) : DataFrame :=
  ⟨df.cols, filter_if_possible df.cols.hasTitle (fun r => r.jobTitle) c.titles df.rows⟩

/-- The sector filter of `apply_filters` as a standalone step. -/
def sectorFilter (c : Criteria) (df : DataFrame) : DataFrame :=
  ⟨df.cols, filter_if_possible df.cols.hasSector (fun r => r.sector) c.sectors df.rows⟩

/-- The company-size filter of `apply_filters` as a standalone step. -/
def sizeFilter (c : Criteria) (df : DataFrame) : DataFrame :=
  ⟨df.cols, filter_if_possible df.cols.hasSize (fun r => r.companySize) c.sizes df.rows⟩

/-- The location filter of `apply_filters` as a standalone step. -/
def locationFilter (c : Criteria) (df : DataFrame) : DataFrame :=
  ⟨df.cols, filter_if_possible df.cols.hasLocation (fun r => r.location) c.locations df.rows⟩

/-- The start-date filter of `apply_filters` as a standalone step. -/
def startFilter (c : Criteria) (df : DataFrame) : DataFrame :=
  ⟨df.cols, match c.start_date with
            | none => df.rows
            | some s => dateStep (startPred df.cols s) df.rows⟩

/-- The end-date filter of `apply_filters` as a standalone step. -/
def endFilter (c : Criteria) (df : DataFrame) : DataFrame :=
  ⟨df.cols, match c.end_date with
            | none => df.rows
            | some e => dateStep (endPred df.cols e) df.rows⟩

/-- The sequential composition in the order claimed by the spec:
campaign → title → sector → size → location → start date → end date
(dates parsed up-front, as the date steps require comparable instants). -/
def spec_ordered_filters (df : DataFrame) (c : Criteria) : DataFrame :=
  endFilter c (startFilter c (locationFilter c (sizeFilter c
    (sectorFilter c (titleFilter c (campaignFilter c (coerceDF df)))))))

/-- C3 counterexample input: the campaign-A row is dated before the bound,
the campaign-B row after it. -/
def dfOrderSensitive : DataFrame :=
  ⟨{}, [{ campaign := .str "A", lastCallTs := .ts 0 },
        { campaign := .str "B", lastCallTs := .ts 20 }]⟩

/-- C3's criteria for the counterexample. -/
def critOrderSensitive : Criteria :=
  { campaigns := ["A"], start_date := some 10 }

/-- C3 as stated is false: the degenerate date fallback makes the
composition order observable, and `apply_filters` (dates first) differs
from the spec's order (categorical filters first) on a concrete input. -/
theorem apply_filters_order_matters :
    apply_filters dfOrderSensitive critOrderSensitive
      ≠ spec_ordered_filters dfOrderSensitive critOrderSensitive := by decide

/-- C3 amended: `apply_filters` IS the sequential intersection of the
individual filters, but in the order start date → end date → campaign →
title → sector → size → location (after the up-front date parsing). -/
theorem apply_filters_eq_sequential_code_order (df : DataFrame) (c : Criteria) :
    apply_filters df c
      = locationFilter c (sizeFilter c (sectorFilter c (titleFilter c
          (campaignFilter c (endFilter c (startFilter c (coerceDF df))))))) := rfl

/-- Parsing an already-converted cell is the identity. -/
theorem toDatetime_idem (c : Cell) : toDatetime (toDatetime c) = toDatetime c := by
  cases c with
  | na => rfl
  | ts t => rfl
  | str s => cases h : parseDate s <;> simp [toDatetime, h]

/-- Converting an already-converted row is the identity. -/
theorem coerceRow_idem (p : Cols) (r : Row) :
    coerceRow p (coerceRow p r) = coerceRow p r := by
  unfold coerceRow
  cases hc : p.hasCallTs <;> cases ha : p.hasActivity <;> simp [toDatetime_idem]

/-- A date step never adds rows. -/
theorem dateStep_sublist (pred : Row → Bool) (l : List Row) :
    (dateStep pred l).Sublist l := by
  unfold dateStep
  split
  · exact List.filter_sublist _
  · exact List.Sublist.refl l

/-- A categorical step never adds rows. -/
theorem fip_sublist (present : Bool) (get : Row → Cell) (values : List String)
    (l : List Row) : (filter_if_possible present get values l).Sublist l := by
  unfold filter_if_possible
  split
  · exact List.filter_sublist _
  · exact List.Sublist.refl l

/-- A date step is the identity on any selection of its own output: inside
the output either every row matched, or (fallback) no row of the input
matched. -/
theorem dateStep_eq_self_of_sublist {pred : Row → Bool} {l l' : List Row}
    (h : l'.Sublist (dateStep pred l)) : dateStep pred l' = l' := by
  unfold dateStep at h ⊢
  by_cases hany : l.any pred = true
  · rw [if_pos hany] at h
    have hall : ∀ x ∈ l', pred x = true :=
      fun x hx => (List.mem_filter.mp (h.subset hx)).2
    split
    · exact List.filter_eq_self.mpr hall
    · rfl
  · rw [if_neg hany] at h
    have hnone : l'.any pred = false :=
      List.any_eq_false.mpr fun x hx =>
        (List.any_eq_false.mp (Bool.eq_false_iff.mpr hany)) x (h.subset hx)
    rw [if_neg (by simp [hnone])]

/-- A categorical step is the identity on any selection of its own
output. -/
theorem fip_eq_self_of_sublist {present : Bool} {get : Row → Cell}
    {values : List String} {l l' : List Row}
    (h : l'.Sublist (filter_if_possible present get values l)) :
    filter_if_possible present get values l' = l' := by
  unfold filter_if_possible at h ⊢
  split
  · next hcond =>
    rw [if_pos hcond] at h
    exact List.filter_eq_self.mpr fun x hx => (List.mem_filter.mp (h.subset hx)).2
  · rfl

/-- The start-date stage of `apply_filters` on the row list. -/
def startRows (p : Cols) (c : Criteria) (rows : List Row) : List Row :=
  match c.start_date with
  | none => rows
  | some s => dateStep (startPred p s) rows

/-- The end-date stage of `apply_filters` on the row list. -/
def endRows (p : Cols) (c : Criteria) (rows : List Row) : List Row :=
  match c.end_date with
  | none => rows
  | some e => dateStep (endPred p e) rows

theorem startRows_sublist (p : Cols) (c : Criteria) (l : List Row) :
    (startRows p c l).Sublist l := by
  unfold startRows
  cases c.start_date
  · exact List.Sublist.refl l
  · exact dateStep_sublist _ l

theorem endRows_sublist (p : Cols) (c : Criteria) (l : List Row) :
    (endRows p c l).Sublist l := by
  unfold endRows
  cases c.end_date
  · exact List.Sublist.refl l
  · exact dateStep_sublist _ l

theorem startRows_fix {p : Cols} {c : Criteria} {l l' : List Row}
    (h : l'.Sublist (startRows p c l)) : startRows p c l' = l' := by
  cases hsd : c.start_date with
  | none => simp [startRows, hsd]
  | some s =>
    simp only [startRows, hsd] at h ⊢
    exact dateStep_eq_self_of_sublist h

theorem endRows_fix {p : Cols} {c : Criteria} {l l' : List Row}
    (h : l'.Sublist (endRows p c l)) : endRows p c l' = l' := by
  cases hed : c.end_date with
  | none => simp [endRows, hed]
  | some e =>
    simp only [endRows, hed] at h ⊢
    exact dateStep_eq_self_of_sublist h

/-- Sequential application of a list of row-list transformers. -/
def chainApply : List (List Row → List Row) → List Row → List Row
  | [], l => l
  | f :: fs, l => chainApply fs (f l)

/-- A chain of shrinking steps shrinks. -/
theorem chainApply_sublist (fs : List (List Row → List Row))
    (hsub : ∀ f ∈ fs, ∀ l, (f l).Sublist l) (l : List Row) :
    (chainApply fs l).Sublist l := by
  induction fs generalizing l with
  | nil => exact List.Sublist.refl l
  | cons f fs ih =>
    exact (ih (fun g hg => hsub g (List.mem_cons_of_mem f hg)) (f l)).trans
      (hsub f (List.mem_cons_self f fs) l)

/-- A chain of projection steps (each the identity on selections of its
own output) is the identity on any selection of its own output. -/
theorem chainApply_fix (fs : List (List Row → List Row))
    (hsub : ∀ f ∈ fs, ∀ l, (f l).Sublist l)
    (hfix : ∀ f ∈ fs, ∀ l l', l'.Sublist (f l) → f l' = l')
    (l l' : List Row) (h : l'.Sublist (chainApply fs l)) :
    chainApply fs l' = l' := by
  induction fs generalizing l l' with
  | nil => rfl
  | cons f fs ih =>
    have hsub' : ∀ g ∈ fs, ∀ m, (g m).Sublist m :=
      fun g hg => hsub g (List.mem_cons_of_mem f hg)
    have hfix' : ∀ g ∈ fs, ∀ m m', m'.Sublist (g m) → g m' = m' :=
      fun g hg => hfix g (List.mem_cons_of_mem f hg)
    have hchain : (chainApply fs (f l)).Sublist (f l) := chainApply_sublist fs hsub' (f l)
    have hf : f l' = l' :=
      hfix f (List.mem_cons_self f fs) l l' (h.trans hchain)
    show chainApply fs (f l') = l'
    rw [hf]
    exact ih hsub' hfix' (f l) l' h

/-- The seven filter stages of `apply_filters`, in the source's order. -/
def filterSteps (p : Cols) (c : Criteria) : List (List Row → List Row) :=
  [startRows p c, endRows p c,
   filter_if_possible p.hasCampaign (fun r => r.campaign) c.campaigns,
   filter_if_possible p.hasTitle (fun r => r.jobTitle) c.titles,
   filter_if_possible p.hasSector (fun r => r.sector) c.sectors,
   filter_if_possible p.hasSize (fun r => r.companySize) c.sizes,
   filter_if_possible p.hasLocation (fun r => r.location) c.locations]

/-- Function `apply_filters` is the chained application of its seven stages to the
converted rows. -/
theorem apply_filters_eq_chain (df : DataFrame) (c : Criteria) :
    apply_filters df c
      = ⟨df.cols, chainApply (filterSteps df.cols c) (df.rows.map (coerceRow df.cols))⟩ := rfl

theorem filterSteps_sublist (p : Cols) (c : Criteria) :
    ∀ f ∈ filterSteps p c, ∀ l, (f l).Sublist l := by
  intro f hf l
  simp only [filterSteps, List.mem_cons, List.not_mem_nil, or_false] at hf
  rcases hf with rfl | rfl | rfl | rfl | rfl | rfl | rfl
  · exact startRows_sublist p c l
  · exact endRows_sublist p c l
  · exact fip_sublist _ _ _ l
  · exact fip_sublist _ _ _ l
  · exact fip_sublist _ _ _ l
  · exact fip_sublist _ _ _ l
  · exact fip_sublist _ _ _ l

theorem filterSteps_fix (p : Cols) (c : Criteria) :
    ∀ f ∈ filterSteps p c, ∀ l l', l'.Sublist (f l) → f l' = l' := by
  intro f hf l l' h
  simp only [filterSteps, List.mem_cons, List.not_mem_nil, or_false] at hf
  rcases hf with rfl | rfl | rfl | rfl | rfl | rfl | rfl
  · exact startRows_fix h
  · exact endRows_fix h
  · exact fip_eq_self_of_sublist h
  · exact fip_eq_self_of_sublist h
  · exact fip_eq_self_of_sublist h
  · exact fip_eq_self_of_sublist h
  · exact fip_eq_self_of_sublist h

/-- In the index-free row-list semantics, the filtering logic is a
projection: a second application of `apply_filters` with the same criteria
(including its re-parsing and its degenerate date fallback) changes
nothing.  This is a statement about the filtering logic only: the pandas
implementation can instead raise on a second application, through the
mask/label misalignment captured by the label-aware model below. -/
theorem apply_filters_idempotent (df : DataFrame) (c : Criteria) :
    apply_filters (apply_filters df c) c = apply_filters df c := by
  rw [apply_filters_eq_chain df c, apply_filters_eq_chain, DataFrame.mk.injEq]
  refine ⟨rfl, ?_⟩
  have hOsub : (chainApply (filterSteps df.cols c) (df.rows.map (coerceRow df.cols))).Sublist
      (df.rows.map (coerceRow df.cols)) :=
    chainApply_sublist _ (filterSteps_sublist df.cols c) _
  have hmap : (chainApply (filterSteps df.cols c) (df.rows.map (coerceRow df.cols))).map
        (coerceRow df.cols)
      = chainApply (filterSteps df.cols c) (df.rows.map (coerceRow df.cols)) := by
    refine (List.map_congr_left fun x hx => ?_).trans (List.map_id _)
    obtain ⟨y, _, hy⟩ := List.mem_map.mp (hOsub.subset hx)
    rw [← hy, coerceRow_idem]
    rfl
  rw [hmap]
  exact chainApply_fix _ (filterSteps_sublist df.cols c) (filterSteps_fix df.cols c) _ _
    (List.Sublist.refl _)

/-- Witness for C2 at a concrete zero-denominator input. -/
theorem metrics_rates_witness :
    (compute_metrics ⟨{}, []⟩).connection_rate = 0
      ∧ (compute_metrics ⟨{}, []⟩).calls_total ≤ ([] : List Row).length := by
  obtain ⟨-, -, -, -, -, -, -, -, h9, -, -, -, -, -, -, -, h17, -⟩ :=
    metrics_rates_in_unit_interval_counts_bounded ⟨{}, []⟩
  exact ⟨h9 rfl, h17⟩

/-- A DataFrame together with its pandas label index: each row carries its
integer label.  `pd.read_csv` yields labels `0, 1, ...`; row filtering
keeps labels, so a pruned frame has gaps in its label sequence. -/
structure IndexedFrame where
  cols : Cols
  rows : List (Nat × Row)
deriving DecidableEq, Repr

/-- A freshly loaded frame: labels are the fresh `RangeIndex` `0..n-1`. -/
def toIndexed (df : DataFrame) : IndexedFrame :=
  ⟨df.cols, df.rows.enum⟩

/-- Model of `pd.Series([False] * len(data))`: an all-False boolean Series
on a fresh `RangeIndex`, regardless of the frame's own labels. -/
def rangeFalseMask (n : Nat) : List (Nat × Bool) :=
  (List.range n).map (fun i => (i, false))

/-- The boolean Series for one date column: built on the frame's labels
when the column is present, and on a fresh `RangeIndex` (the source's
`pd.Series([False] * len(data))`) when it is absent. -/
def colMask (present : Bool) (test : Row → Bool) (data : List (Nat × Row)) :
    List (Nat × Bool) :=
  if present then data.map (fun q => (q.1, test q.2))
  else rangeFalseMask data.length

/-- The value of a boolean Series at a label, when the label is in its
index. -/
def maskLookup (m : List (Nat × Bool)) (i : Nat) : Option Bool :=
  (m.find? (fun q => q.1 == i)).map (fun q => q.2)

/-- Model of `mask_call | mask_email` on boolean Series: pandas aligns the
two indexes on their union and fills missing entries with False.  (pandas
sorts a union of distinct indexes; the order of the mask's entries is
irrelevant to `sum` and to label-based selection, so first-occurrence
order is used here.) -/
def orMasks (m1 m2 : List (Nat × Bool)) : List (Nat × Bool) :=
  ((m1.map (fun q => q.1) ++ m2.map (fun q => q.1)).eraseDups).map
    (fun i => (i, ((maskLookup m1 i).getD false) || ((maskLookup m2 i).getD false)))

/-- Model of `data[mask]` for a boolean Series indexer: pandas aligns the
mask to the frame's labels and raises `IndexingError` (`Unalignable
boolean Series provided as indexer`) when some frame label is missing from
the mask's index; otherwise it keeps the rows whose label maps to True. -/
def boolIndex (data : List (Nat × Row)) (mask : List (Nat × Bool)) :
    Except String (List (Nat × Row)) :=
  if data.all (fun q => (maskLookup mask q.1).isSome) then
    .ok (data.filter (fun q => (maskLookup mask q.1).getD false))
  else .error "IndexingError: Unalignable boolean Series provided as indexer"

/-- One date-filter step of the label-aware model:
`data[mask | (mask.sum() == 0)]`.  Or-ing the scalar `True` (the fallback)
turns every entry of the combined mask to True without changing its
index, so an unalignable mask still raises. -/
def dateStepIndexed (mask : List (Nat × Bool)) (data : List (Nat × Row)) :
    Except String (List (Nat × Row)) :=
  let combined := if mask.countP (fun q => q.2) = 0
    then mask.map (fun q => (q.1, true)) else mask
  boolIndex data combined

/-- The inner helper `filter_if_possible` on labelled rows: its mask is
built from the frame's own column, so it always aligns and never raises. -/
def filter_if_possible_pairs (present : Bool) (get : Row → Cell)
    (values : List String) (rows : List (Nat × Row)) : List (Nat × Row) :=
  if values ≠ [] ∧ present then rows.filter (fun q => cellInVals (get q.2) values)
  else rows

/-- Model of `apply_filters` with the pandas label index: identical to
`apply_filters` except that the two date steps go through boolean-Series
label alignment, the one place where the source can raise. -/
def apply_filters_indexed (df : IndexedFrame) (c : Criteria) :
    Except String IndexedFrame :=
  let p := df.cols
  let rows0 := df.rows.map (fun q => (q.1, coerceRow p q.2))
  (match c.start_date with
    | none => Except.ok rows0
    | some s =>
      dateStepIndexed
        (orMasks (colMask p.hasCallTs (fun r => r.lastCallTs.tsGe s) rows0)
                 (colMask p.hasActivity (fun r => r.lastActivity.tsGe s) rows0))
        rows0).bind fun rows1 =>
  (match c.end_date with
    | none => Except.ok rows1
    | some e =>
      dateStepIndexed
        (orMasks (colMask p.hasCallTs (fun r => r.lastCallTs.tsLe e) rows1)
                 (colMask p.hasActivity (fun r => r.lastActivity.tsLe e) rows1))
        rows1).bind fun rows2 =>
  let rows3 := filter_if_possible_pairs p.hasCampaign (fun r => r.campaign) c.campaigns rows2
  let rows4 := filter_if_possible_pairs p.hasTitle (fun r => r.jobTitle) c.titles rows3
  let rows5 := filter_if_possible_pairs p.hasSector (fun r => r.sector) c.sectors rows4
  let rows6 := filter_if_possible_pairs p.hasSize (fun r => r.companySize) c.sizes rows5
  let rows7 := filter_if_possible_pairs p.hasLocation (fun r => r.location) c.locations rows6
  Except.ok ⟨p, rows7⟩

/-- C7's failing input: neither date column, campaigns `B` then `A`, a
start bound, and the allowed list `["A"]`, which prunes label 0. -/
def dfPrunedIndex : DataFrame :=
  ⟨{ hasCallTs := false, hasActivity := false },
   [{ campaign := .str "B" }, { campaign := .str "A" }]⟩

/-- The criteria of C7's failing input. -/
def critPrunedIndex : Criteria :=
  { campaigns := ["A"], start_date := some 0 }

/-- C7: the Filter Engine is not idempotent as implemented.  On the
failing input the first application succeeds (the all-absent date fallback
keeps both rows, the campaign filter keeps the row with label 1), but the
second application rebuilds the absent-column masks as
`pd.Series([False] * len(data))` on the fresh `RangeIndex` `[0]`, which
cannot be aligned with the pruned label index `[1]`, so `data[mask]`
raises `IndexingError` — applying the engine twice is not applying it
once. -/
theorem apply_filters_second_application_raises :
    apply_filters_indexed (toIndexed dfPrunedIndex) critPrunedIndex
        = .ok ⟨dfPrunedIndex.cols, [(1, { campaign := .str "A" })]⟩
      ∧ apply_filters_indexed ⟨dfPrunedIndex.cols, [(1, { campaign := .str "A" })]⟩
            critPrunedIndex
        = .error "IndexingError: Unalignable boolean Series provided as indexer"
      ∧ (apply_filters_indexed (toIndexed dfPrunedIndex) critPrunedIndex).bind
            (fun out => apply_filters_indexed out critPrunedIndex)
        ≠ apply_filters_indexed (toIndexed dfPrunedIndex) critPrunedIndex := by
  decide
